import Mathlib

/-!
Shallow embedding of the LastNightPix API backend (Express, three source
variants).  Every handler is embedded as a pure function from the request
plus the exogenous outcomes of its external calls (object storage, the face
API, the hosted checkout) to a response together with the trace of external
calls it performed, translated from the JavaScript source.
-/

namespace LNP

/-- Embedding of a JS global single-character replacement
`s.replace(/a/g, b)` where the pattern and the replacement are one
character each. -/
def replaceAll (a b : Char) (s : String) : String :=
  ⟨s.data.map (fun c => if c = a then b else c)⟩

/-- Embedding of keyToExternalId (index.js line 77): every slash of an S3
key becomes a colon, since Rekognition rejects slashes in ExternalImageId. -/
def keyToExternalId (key : String) : String := replaceAll '/' ':' key

/-- Embedding of externalIdToKey (index.js line 78): every colon of an
ExternalImageId becomes a slash again. -/
def externalIdToKey (eid : String) : String := replaceAll ':' '/' eid

/-- Embedding of the admin-upload event-code sanitizer (index.js line 265):
`(req.query.event || 'general').replace(/[^a-zA-Z0-9_\-:.]/g, '')` keeps
only ASCII alphanumerics, underscore, hyphen, colon and dot. -/
def sanitizeEvent (s : String) : String :=
  ⟨s.data.filter (fun c =>
    c.isAlphanum || c = '_' || c = '-' || c = ':' || c = '.')⟩


/-- Embedding of JS String.prototype.trim: strip leading and trailing
whitespace. -/
def trimStr (s : String) : String :=
  ⟨((s.data.dropWhile Char.isWhitespace).reverse.dropWhile Char.isWhitespace).reverse⟩

/-- Splitting on commas, as `keys.split(',')` does (an empty string yields
one empty piece). -/
def splitCommaAux (acc : List Char) : List Char → List String
  | [] => [⟨acc.reverse⟩]
  | c :: rest =>
    if c = ',' then (⟨acc.reverse⟩ : String) :: splitCommaAux [] rest
    else splitCommaAux (c :: acc) rest

/-- Embedding of `s.split(',')`. -/
def splitComma (s : String) : List String := splitCommaAux [] s.data

/-- Hex digit character for a value below 16, upper case as produced by
encodeURIComponent. -/
def hexDigitChar (n : Nat) : Char :=
  if n < 10 then Char.ofNat (48 + n) else Char.ofNat (55 + n)

/-- Percent-encoding of one byte. -/
def percentByte (b : Nat) : String :=
  ⟨['%', hexDigitChar (b / 16 % 16), hexDigitChar (b % 16)]⟩

/-- UTF-8 bytes of a character, as natural numbers. -/
def utf8Bytes (c : Char) : List Nat :=
  let n := c.toNat
  if n < 128 then [n]
  else if n < 2048 then [192 + n / 64, 128 + n % 64]
  else if n < 65536 then [224 + n / 4096, 128 + n / 64 % 64, 128 + n % 64]
  else [240 + n / 262144, 128 + n / 4096 % 64, 128 + n / 64 % 64, 128 + n % 64]

/-- Characters encodeURIComponent leaves as they are
(alphanumerics and `- _ . ! ~ * ' ( )`); code 39 is the apostrophe. -/
def uriUnreserved (c : Char) : Bool :=
  c.isAlphanum || c = '-' || c = '_' || c = '.' || c = '!' || c = '~' ||
  c = '*' || c.toNat = 39 || c = '(' || c = ')'

/-- Embedding of JS encodeURIComponent, used when handlers build
preview/proxy URLs from S3 keys. -/
def encodeURIComponent (s : String) : String :=
  s.data.foldl (fun acc c =>
    if uriUnreserved c then acc.push c
    else acc ++ String.join ((utf8Bytes c).map percentByte)) ""

/-- Environment configuration read once at startup (the process.env block
of each variant). -/
structure Env where
  BUCKET : String
  COLLECTION : String
  ADMIN_TOKEN : String
  STRIPE_SECRET : String
  FRONTEND_URL : String
  API_BASE : String
  WM_TEXT : String
  PRICE_SINGLE : Nat
  ALBUM_MIN : Nat
  ALBUM_CENTS : Nat
  PREVIEW_MAX_W : Nat
  PREVIEW_JPEG_QUALITY : Nat
deriving DecidableEq, Repr

/-- The default configuration values of index.js lines 21-37 (bucket and
collection have no default; placeholders stand for set values). -/
def defaultEnv : Env where
  BUCKET := "bucket"
  COLLECTION := "collection"
  ADMIN_TOKEN := ""
  STRIPE_SECRET := ""
  FRONTEND_URL := "http://localhost:3000"
  API_BASE := "https://lastnightpix-api.onrender.com"
  WM_TEXT := "LastNightPix.com • PREVIEW"
  PRICE_SINGLE := 199
  ALBUM_MIN := 5
  ALBUM_CENTS := 999
  PREVIEW_MAX_W := 1200
  PREVIEW_JPEG_QUALITY := 80

/-- Parameters of a Stripe checkout-session create call, as assembled by
the handlers (line_items price_data plus metadata). -/
structure SessionCreateParams where
  productName : String
  unit_amount : Nat
  quantity : Nat
  success_url : String
  cancel_url : String
  metadataKeys : Option (List String)
  metadataS3Key : Option String
deriving DecidableEq, Repr

/-- Image data flowing through the handlers: either a stored S3 object body
or the result of sharp operations applied to one. -/
inductive ImgContent
  | stored (bucket key : String)
  | resized (base : ImgContent) (width : Nat)
  | composited (base : ImgContent) (overlayText : String)
  | jpegEnc (base : ImgContent) (quality : Nat)
deriving DecidableEq, Repr

/-- One external-service invocation, with the arguments a handler passes. -/
inductive ExtCall
  | s3Put (bucket key contentType : String)
  | s3Get (bucket key : String)
  | s3Copy (bucket copySource destKey : String)
  | rekIndexFaces (collection externalId bucket name : String)
  | rekSearchFaces (collection : String) (threshold maxFaces : Nat)
  | rekDetectFaces (bucket name : String)
  | stripeCreate (secret : String) (p : SessionCreateParams)
  | stripeRetrieve (sessionId : String)
  | httpFetch (url : String)
deriving DecidableEq, Repr

/-- The kind of an external call, for comparing against the interface
surface the spec lists. -/
inductive ExtKind
  | put | get | copy | indexFaces | searchFaces | detectFaces
  | createSession | retrieveSession | fetch
deriving DecidableEq, Repr

/-- Kind of a call. -/
def kindOf : ExtCall → ExtKind
  | .s3Put _ _ _ => .put
  | .s3Get _ _ => .get
  | .s3Copy _ _ _ => .copy
  | .rekIndexFaces _ _ _ _ => .indexFaces
  | .rekSearchFaces _ _ _ => .searchFaces
  | .rekDetectFaces _ _ => .detectFaces
  | .stripeCreate _ _ => .createSession
  | .stripeRetrieve _ => .retrieveSession
  | .httpFetch _ => .fetch

/-- The interface surface claimed by the spec: object-storage put/get, a
face-indexing/search call, and checkout session create/retrieve. -/
def claimedKinds : List ExtKind :=
  [.put, .get, .indexFaces, .searchFaces, .createSession, .retrieveSession]

/-- The interface surface the code actually uses: the claimed kinds plus
the face-detection fallback, the webhook's object copy, and the generic
HTTP fetch of /match-by-url. -/
def actualKinds : List ExtKind :=
  [.put, .get, .indexFaces, .searchFaces, .createSession, .retrieveSession,
   .detectFaces, .copy, .fetch]

/-- Request body of POST /create-checkout-session. -/
structure CheckoutBody where
  tier : Option String
  key : Option String
  keys : Option (List String)
deriving DecidableEq, Repr

/-- Response of POST /create-checkout-session. -/
structure CheckoutResp where
  status : Nat
  url : Option String
  error : Option String
deriving DecidableEq, Repr

/-- The album price expression of index.js line 211:
`(arr.length >= ALBUM_MIN) ? ALBUM_CENTS : arr.length * PRICE_SINGLE`. -/
def albumPriceCents (env : Env) (n : Nat) : Nat :=
  if n ≥ env.ALBUM_MIN then env.ALBUM_CENTS else n * env.PRICE_SINGLE

/-- The create-session parameters for tier 'single' (index.js lines
192-204). -/
def singleParams (env : Env) (key : String) : SessionCreateParams where
  productName := "HD Photo (Single)"
  unit_amount := env.PRICE_SINGLE
  quantity := 1
  success_url := env.FRONTEND_URL ++ "/thanks.html?tier=single&key=" ++
    encodeURIComponent key ++ "&session_id=\x7bCHECKOUT_SESSION_ID\x7d"
  cancel_url := env.FRONTEND_URL ++ "/find-gallery.html?cancel=1"
  metadataKeys := none
  metadataS3Key := none

/-- The create-session parameters for tier 'album' (index.js lines
212-225), for the already-filtered key list `arr`. -/
def albumParams (env : Env) (arr : List String) : SessionCreateParams where
  productName := "HD Album (" ++ toString arr.length ++ " photos)"
  unit_amount := albumPriceCents env arr.length
  quantity := 1
  success_url := env.FRONTEND_URL ++ "/thanks.html?tier=album&count=" ++
    toString arr.length ++ "&session_id=\x7bCHECKOUT_SESSION_ID\x7d"
  cancel_url := env.FRONTEND_URL ++ "/find-gallery.html?cancel=1"
  metadataKeys := some (arr.take 100)
  metadataS3Key := none

/-- Embedding of POST /create-checkout-session (index.js lines 185-234).
`createRes` is the created session's url (`none` models a failed create
call); the create call itself is recorded in the trace with its params. -/
def createCheckoutV1 (env : Env) (body : Option CheckoutBody)
    (createRes : Option String) : CheckoutResp × List ExtCall :=
  if env.STRIPE_SECRET = "" then
    (⟨500, none, some "Failed to create checkout session: Stripe not configured: missing STRIPE_SECRET env var"⟩, [])
  else
    let b := body.getD { tier := none, key := none, keys := none }
    if b.tier = some "single" then
      match b.key with
      | none => (⟨400, none, some "Missing key"⟩, [])
      | some key =>
        let p := singleParams env key
        match createRes with
        | some url => (⟨200, some url, none⟩, [ExtCall.stripeCreate env.STRIPE_SECRET p])
        | none => (⟨500, none, some "Failed to create checkout session: create failed"⟩, [ExtCall.stripeCreate env.STRIPE_SECRET p])
    else if b.tier = some "album" then
      let arr := (b.keys.getD []).filter (fun k => k ≠ "")
      if arr.isEmpty then (⟨400, none, some "Missing keys"⟩, [])
      else
        let p := albumParams env arr
        match createRes with
        | some url => (⟨200, some url, none⟩, [ExtCall.stripeCreate env.STRIPE_SECRET p])
        | none => (⟨500, none, some "Failed to create checkout session: create failed"⟩, [ExtCall.stripeCreate env.STRIPE_SECRET p])
    else (⟨400, none, some "Invalid tier"⟩, [])

/-- One face of a Rekognition FaceMatch. -/
structure Face where
  ExternalImageId : Option String
deriving DecidableEq, Repr

/-- A Rekognition FaceMatch; Similarity is modelled as an integer percent
(the claims under study never depend on fractional similarity). -/
structure FaceMatch where
  Face : Option Face
  Similarity : Option Nat
deriving DecidableEq, Repr

/-- Embedding of the JS access `m.Face?.ExternalImageId || ''`. -/
def eidOf (m : FaceMatch) : String := (m.Face.bind Face.ExternalImageId).getD ""

/-- One entry of the match-gallery results array. -/
structure MatchResult where
  key : String
  similarity : Nat
  imageUrl : String
deriving DecidableEq, Repr

/-- Response of POST /match-gallery (count is only set by the part_000
variant). -/
structure MGResp where
  status : Nat
  matchFound : Bool
  results : List MatchResult
  count : Option Nat
  error : Option String
deriving DecidableEq, Repr

/-- One pass of the results-building loops of /match-gallery: key mapped
back from the ExternalImageId, rounded similarity, and a preview URL with
the encoded key appended to `pre`. -/
def toResult (pre : String) (m : FaceMatch) : MatchResult :=
  let s3key := externalIdToKey (eidOf m)
  ⟨s3key, m.Similarity.getD 0, pre ++ encodeURIComponent s3key⟩

/-- Embedding of the de-duplication filter
`results.filter(r => !seen.has(r.key) && seen.add(r.key))`: keep the first
occurrence of every key not already seen. -/
def dedupeByKey (seen : List String) : List MatchResult → List MatchResult
  | [] => []
  | r :: rs =>
    if r.key ∈ seen then dedupeByKey seen rs
    else r :: dedupeByKey (r.key :: seen) rs

/-- Insertion step of the descending sort by similarity
(`(a,b) => b.similarity - a.similarity`). -/
def insertDesc (r : MatchResult) : List MatchResult → List MatchResult
  | [] => [r]
  | x :: xs => if x.similarity < r.similarity then r :: x :: xs else x :: insertDesc r xs

/-- Sort of the results array, descending by similarity. -/
def sortBySimDesc : List MatchResult → List MatchResult
  | [] => []
  | r :: rs => insertDesc r (sortBySimDesc rs)

/-- Insertion step of the descending sort applied to raw FaceMatches
(`(a,b) => (b.Similarity||0)-(a.Similarity||0)`). -/
def insertMatchDesc (m : FaceMatch) : List FaceMatch → List FaceMatch
  | [] => [m]
  | x :: xs =>
    if x.Similarity.getD 0 < m.Similarity.getD 0 then m :: x :: xs
    else x :: insertMatchDesc m xs

/-- Sort of a FaceMatch list, descending by similarity. -/
def sortMatchesDesc : List FaceMatch → List FaceMatch
  | [] => []
  | m :: ms => insertMatchDesc m (sortMatchesDesc ms)

/-- Embedding of POST /match-gallery (index.js lines 140-182).  `sharpRes`
is the outcome of the local selfie preprocessing, `search` the outcome of
searchFacesByImage. -/
def matchGalleryV1 (env : Env) (hasFile : Bool) (sharpRes : Except String Unit)
    (search : Except String (List FaceMatch)) : MGResp × List ExtCall :=
  if !hasFile then (⟨200, false, [], none, some "No image uploaded"⟩, [])
  else
    match sharpRes with
    | .error m => (⟨500, false, [], none, some m⟩, [])
    | .ok _ =>
      match search with
      | .error msg =>
        (⟨500, false, [], none, some msg⟩, [ExtCall.rekSearchFaces env.COLLECTION 75 50])
      | .ok matchList =>
        let results := (matchList.map (toResult "/preview-image?key=")).filter (fun r => r.key ≠ "")
        let unique := sortBySimDesc (dedupeByKey [] results)
        (⟨200, decide (unique.length > 0), unique, none, none⟩,
          [ExtCall.rekSearchFaces env.COLLECTION 75 50])

/-- The for-loop of the second /match-gallery variant (index.js lines
534-545): entries with an empty key are skipped with `continue`. -/
def resultsV2 (pre : String) : List FaceMatch → List MatchResult
  | [] => []
  | m :: ms =>
    let key := externalIdToKey (eidOf m)
    if key = "" then resultsV2 pre ms
    else ⟨key, m.Similarity.getD 0, pre ++ encodeURIComponent key⟩ :: resultsV2 pre ms

/-- Embedding of POST /match-gallery, second variant (index.js lines
505-556): early empty return, per-entry API_BASE prefix, then the same
de-duplication and sort. -/
def matchGalleryV2 (env : Env) (hasFile : Bool) (sharpRes : Except String Unit)
    (search : Except String (List FaceMatch)) : MGResp × List ExtCall :=
  if !hasFile then (⟨200, false, [], none, some "No image uploaded"⟩, [])
  else
    match sharpRes with
    | .error m => (⟨500, false, [], none, some m⟩, [])
    | .ok _ =>
      match search with
      | .error msg =>
        (⟨500, false, [], none, some msg⟩, [ExtCall.rekSearchFaces env.COLLECTION 75 50])
      | .ok matchList =>
        if matchList.isEmpty then
          (⟨200, false, [], none, none⟩, [ExtCall.rekSearchFaces env.COLLECTION 75 50])
        else
          let results := resultsV2 (env.API_BASE ++ "/preview-image?key=") matchList
          let unique := sortBySimDesc (dedupeByKey [] results)
          (⟨200, decide (unique.length > 0), unique, none, none⟩,
            [ExtCall.rekSearchFaces env.COLLECTION 75 50])

/-- Embedding of eventPrefix of part_000/part_001:
`event ? \`event-photos/$\x7bevent\x7d/\` : \`event-photos/default/\``. -/
def eventPrefixFn (event : String) : String :=
  if event = "" then "event-photos/default/" else "event-photos/" ++ event ++ "/"

/-- Embedding of colonPrefix of part_000: slashes of a prefix become
colons. -/
def colonPrefixFn (s : String) : String := replaceAll '/' ':' s

/-- Embedding of POST /match-gallery of part_000 (lines 139-181): optional
event filter, sort, then a straight map over the matches with NO empty-key
filter and NO de-duplication, building /proxy-image URLs. -/
def matchGalleryP0 (env : Env) (event? : Option String) (hasFile : Bool)
    (search : Except String (List FaceMatch)) : MGResp × List ExtCall :=
  if !hasFile then
    (⟨400, false, [], none, some "No file uploaded. Field must be 'image'."⟩, [])
  else
    let event := trimStr (event?.getD "")
    let wantedColon? : Option String :=
      if event = "" then none else some (colonPrefixFn (eventPrefixFn event))
    match search with
    | .error msg =>
      (⟨500, false, [], none, some ("match-gallery failed: " ++ msg)⟩,
        [ExtCall.rekSearchFaces env.COLLECTION 80 12])
    | .ok ms =>
      let matchList := match wantedColon? with
        | some p => ms.filter (fun m => p.data.isPrefixOf (eidOf m).data)
        | none => ms
      let results := (sortMatchesDesc matchList).map (fun m =>
        let s3Key := externalIdToKey (eidOf m)
        (⟨s3Key, m.Similarity.getD 0, "/proxy-image?key=" ++ encodeURIComponent s3Key⟩ : MatchResult))
      (⟨200, decide (results.length > 0), results, some results.length, none⟩,
        [ExtCall.rekSearchFaces env.COLLECTION 80 12])

/-- Image metadata as read by `sharp(..).metadata()`. -/
structure ImgMeta where
  width : Option Nat
  height : Option Nat
deriving DecidableEq, Repr

/-- Response of GET /preview-image and the image-serving handlers. -/
structure PreviewResp where
  status : Nat
  contentType : Option String
  body : Option ImgContent
  text : Option String
deriving DecidableEq, Repr

/-- Embedding of GET /preview-image (index.js lines 94-137): resize to
`min(meta.width, PREVIEW_MAX_W)`, composite the tiled watermark SVG, encode
as JPEG; any failure is caught and answered with 500. -/
def previewImageV1 (env : Env) (key? : Option String) (got : Option ImgContent)
    (meta : ImgMeta) (sharpOk : Bool) : PreviewResp × List ExtCall :=
  match key? with
  | none => (⟨400, none, none, some "Missing key"⟩, [])
  | some key =>
    match got with
    | none =>
      (⟨500, none, none, some "preview-image failed: getObject"⟩, [ExtCall.s3Get env.BUCKET key])
    | some inputBuffer =>
      if sharpOk then
        let width := min (meta.width.getD env.PREVIEW_MAX_W) env.PREVIEW_MAX_W
        let out := ImgContent.jpegEnc
          (ImgContent.composited (ImgContent.resized inputBuffer width) env.WM_TEXT)
          env.PREVIEW_JPEG_QUALITY
        (⟨200, some "image/jpeg", some out, none⟩, [ExtCall.s3Get env.BUCKET key])
      else (⟨500, none, none, some "preview-image failed: sharp"⟩, [ExtCall.s3Get env.BUCKET key])

/-- Embedding of GET /preview-image, second variant (index.js lines
444-503): resize to PREVIEW_MAX_W, composite the centered watermark SVG
and encode as JPEG; on ANY failure the catch block fetches the object
again and sends the ORIGINAL, unwatermarked, with status 200.  `got1` and
`got2` are the outcomes of the first and second getObject. -/
def previewImageV2 (env : Env) (key? : Option String) (got1 got2 : Option ImgContent)
    (sharpOk : Bool) : PreviewResp × List ExtCall :=
  match key? with
  | none => (⟨400, none, none, some "Missing key"⟩, [])
  | some key =>
    match got1 with
    | some original =>
      if sharpOk then
        let out := ImgContent.jpegEnc
          (ImgContent.composited (ImgContent.resized original env.PREVIEW_MAX_W) env.WM_TEXT)
          env.PREVIEW_JPEG_QUALITY
        (⟨200, some "image/jpeg", some out, none⟩, [ExtCall.s3Get env.BUCKET key])
      else
        match got2 with
        | some orig2 =>
          (⟨200, some "image/jpeg", some orig2, none⟩,
            [ExtCall.s3Get env.BUCKET key, ExtCall.s3Get env.BUCKET key])
        | none =>
          (⟨500, none, none, some "Could not load image"⟩,
            [ExtCall.s3Get env.BUCKET key, ExtCall.s3Get env.BUCKET key])
    | none =>
      match got2 with
      | some orig2 =>
        (⟨200, some "image/jpeg", some orig2, none⟩,
          [ExtCall.s3Get env.BUCKET key, ExtCall.s3Get env.BUCKET key])
      | none =>
        (⟨500, none, none, some "Could not load image"⟩,
          [ExtCall.s3Get env.BUCKET key, ExtCall.s3Get env.BUCKET key])

/-- Embedding of GET /preview-image of part_001 (lines 150-211): a truthy
`raw` query parameter streams the stored object untouched; otherwise the
boxed watermark SVG is composited (the source chains .jpeg before
.composite and never resizes). -/
def previewImageP1 (env : Env) (key? raw? : Option String)
    (gotRaw got : Option ImgContent) (sharpOk : Bool) : PreviewResp × List ExtCall :=
  match key? with
  | none => (⟨400, none, none, some "Missing key"⟩, [])
  | some key =>
    if raw?.getD "" ≠ "" then
      match gotRaw with
      | some body => (⟨200, some "image/jpeg", some body, none⟩, [ExtCall.s3Get env.BUCKET key])
      | none => (⟨404, none, none, some "Not found"⟩, [ExtCall.s3Get env.BUCKET key])
    else
      match got with
      | none => (⟨500, none, none, some "preview-image failed"⟩, [ExtCall.s3Get env.BUCKET key])
      | some original =>
        if sharpOk then
          let out := ImgContent.composited (ImgContent.jpegEnc original 80)
            "LastNightPix.com • PREVIEW"
          (⟨200, some "image/jpeg", some out, none⟩, [ExtCall.s3Get env.BUCKET key])
        else (⟨500, none, none, some "preview-image failed"⟩, [ExtCall.s3Get env.BUCKET key])

/-- A presigned S3 URL as produced by `s3.getSignedUrl('getObject', ...)`
(computed locally, hence not an external call). -/
structure SignedUrl where
  bucket : String
  key : String
  expires : Nat
deriving DecidableEq, Repr

/-- Response of the download/proxy handlers: either a signed URL or a
streamed object body. -/
structure DownloadResp where
  status : Nat
  url : Option SignedUrl
  body : Option ImgContent
  error : Option String
deriving DecidableEq, Repr

/-- Embedding of GET /download (index.js lines 237-253): a signed URL for
ANY requested key, with no session or payment involved at all. -/
def downloadV1 (env : Env) (key? : Option String) : DownloadResp × List ExtCall :=
  match key? with
  | none => (⟨400, none, none, some "Missing key"⟩, [])
  | some key => (⟨200, some ⟨env.BUCKET, key, 60⟩, none, none⟩, [])

/-- A retrieved Stripe checkout session: its payment_status, the parsed
`metadata.keys` JSON (none = absent, unparseable or not an array) and the
`metadata.s3_key` string used by part_001. -/
structure StripeSession where
  payment_status : String
  metadataKeys : Option (List String)
  metadata_s3_key : Option String
deriving DecidableEq, Repr

/-- Response of GET /purchase/session. -/
structure PurchaseResp where
  status : Nat
  ok : Bool
  items : List (String × SignedUrl)
  error : Option String
deriving DecidableEq, Repr

/-- Embedding of GET /purchase/session (index.js lines 615-654): only a
retrieved session with payment_status 'paid' and a non-empty metadata keys
array yields signed URLs for the original files. -/
def purchaseSession (env : Env) (sessionId? : Option String)
    (retr : Except String (Option StripeSession)) : PurchaseResp × List ExtCall :=
  if env.STRIPE_SECRET = "" then
    (⟨500, false, [], some "purchase/session failed: Stripe not configured: missing STRIPE_SECRET env var"⟩, [])
  else
    match sessionId? with
    | none => (⟨400, false, [], some "Missing session_id"⟩, [])
    | some sid =>
      if sid = "" then (⟨400, false, [], some "Missing session_id"⟩, [])
      else
        match retr with
        | .error msg =>
          (⟨500, false, [], some ("purchase/session failed: " ++ msg)⟩, [ExtCall.stripeRetrieve sid])
        | .ok none => (⟨403, false, [], some "Session not paid"⟩, [ExtCall.stripeRetrieve sid])
        | .ok (some session) =>
          if session.payment_status ≠ "paid" then
            (⟨403, false, [], some "Session not paid"⟩, [ExtCall.stripeRetrieve sid])
          else
            let keys := session.metadataKeys.getD []
            if keys.isEmpty then
              (⟨400, false, [], some "No purchased keys found"⟩, [ExtCall.stripeRetrieve sid])
            else
              (⟨200, true, keys.map (fun k => (k, (⟨env.BUCKET, k, 60⟩ : SignedUrl))), none⟩,
                [ExtCall.stripeRetrieve sid])

/-- Embedding of GET /download of part_001 (lines 260-281): streams the
original only when the retrieved session is paid and names an s3_key. -/
def downloadP1 (env : Env) (sessionId? : Option String)
    (retr : Except String (Option StripeSession)) (got : Option ImgContent) :
    DownloadResp × List ExtCall :=
  if env.STRIPE_SECRET = "" then
    (⟨500, none, none, some "download failed: Stripe not configured: missing STRIPE_SECRET env var"⟩, [])
  else
    match sessionId? with
    | none => (⟨400, none, none, some "Missing session_id"⟩, [])
    | some sid =>
      if sid = "" then (⟨400, none, none, some "Missing session_id"⟩, [])
      else
        match retr with
        | .error msg =>
          (⟨500, none, none, some ("download failed: " ++ msg)⟩, [ExtCall.stripeRetrieve sid])
        | .ok none =>
          (⟨402, none, none, some "Payment required or not verified"⟩, [ExtCall.stripeRetrieve sid])
        | .ok (some session) =>
          if session.payment_status ≠ "paid" then
            (⟨402, none, none, some "Payment required or not verified"⟩, [ExtCall.stripeRetrieve sid])
          else
            match session.metadata_s3_key with
            | none =>
              (⟨400, none, none, some "Missing key in session metadata"⟩, [ExtCall.stripeRetrieve sid])
            | some key =>
              if key = "" then
                (⟨400, none, none, some "Missing key in session metadata"⟩, [ExtCall.stripeRetrieve sid])
              else
                match got with
                | some body =>
                  (⟨200, none, some body, none⟩,
                    [ExtCall.stripeRetrieve sid, ExtCall.s3Get env.BUCKET key])
                | none =>
                  (⟨404, none, none, some "Not found"⟩,
                    [ExtCall.stripeRetrieve sid, ExtCall.s3Get env.BUCKET key])

/-- Embedding of GET /proxy-image (part_000 lines 226-242): streams the
ORIGINAL stored object for any requested key, no payment involved. -/
def proxyImage (env : Env) (key? : Option String) (got : Option ImgContent) :
    DownloadResp × List ExtCall :=
  match key? with
  | none => (⟨400, none, none, some "Missing key"⟩, [])
  | some key =>
    match got with
    | some body => (⟨200, none, some body, none⟩, [ExtCall.s3Get env.BUCKET key])
    | none => (⟨404, none, none, some "Not found"⟩, [ExtCall.s3Get env.BUCKET key])

/-- A session referenced through `retr` that has been retrieved and paid. -/
def paidRetr (retr : Except String (Option StripeSession)) : Prop :=
  ∃ s : StripeSession, retr = .ok (some s) ∧ s.payment_status = "paid"


/-- Lower-cased copy of a string, for the case-insensitive regex tests. -/
def toLowerStr (s : String) : String := ⟨s.data.map Char.toLower⟩

/-- Substring occurrence test over character lists. -/
def hasSubAux (pat : List Char) : List Char → Bool
  | [] => pat.isEmpty
  | c :: rest => pat.isPrefixOf (c :: rest) || hasSubAux pat rest

/-- Case-insensitive substring test, as the /i regexes on mimetypes do. -/
def hasSubCI (s pat : String) : Bool := hasSubAux pat.data (toLowerStr s).data

/-- Case-insensitive suffix test, as the extension regexes with /i do. -/
def endsWithCI (s sfx : String) : Bool := sfx.data.isSuffixOf (toLowerStr s).data

/-- The HEIC sniff of index.js line 273: mimetype matching
image/heic|image/heif or a .heic/.heif file name. -/
def looksHeicTest (mimetype name : String) : Bool :=
  hasSubCI mimetype "image/heic" || hasSubCI mimetype "image/heif" ||
  endsWithCI name ".heic" || endsWithCI name ".heif"

/-- Replace a final extension drawn from `exts` (checked in order, case
insensitively) with ".jpg"; otherwise leave the name unchanged. -/
def replaceExtWithJpg (name : String) (exts : List String) : String :=
  match exts.find? (fun e => endsWithCI name e) with
  | some e => (⟨name.data.take (name.data.length - e.data.length)⟩ : String) ++ ".jpg"
  | none => name

/-- An uploaded multipart file. -/
structure FileIn where
  originalname : Option String
  mimetype : Option String
  content : String
deriving DecidableEq, Repr

/-- The normalized base name of index.js lines 272-275. -/
def normalizeBaseName (f : FileIn) : String :=
  let baseName := f.originalname.getD "photo.jpg"
  if looksHeicTest (f.mimetype.getD "") baseName then
    replaceExtWithJpg baseName [".heic", ".heif"]
  else
    replaceExtWithJpg baseName [".jpeg", ".jpg", ".png", ".gif", ".webp", ".tif", ".tiff"]

/-- The safe-name filter of index.js line 285: every character outside
word characters, dot and hyphen becomes an underscore. -/
def safeNameOf (s : String) : String :=
  ⟨s.data.map (fun c =>
    if c.isAlphanum || c = '_' || c = '.' || c = '-' then c else '_')⟩

deriving instance DecidableEq for Except

/-- Outcome of a rekognition.indexFaces call
(none models a non-array field). -/
structure IdxOut where
  FaceRecords : Option (List String)
  UnindexedFaces : Option (List (List String))
deriving DecidableEq, Repr

/-- Exogenous outcomes of the per-file external calls of /admin/upload. -/
structure FileWorld where
  pipelineOk : Bool
  putOk : Bool
  idx : Except String IdxOut
  det : Except String (Option (List String))
deriving DecidableEq, Repr

/-- One entry of the /admin/upload results array. -/
structure UploadResult where
  key : Option String
  ok : Bool
  facesIndexed : Nat
  faceCountInImage : Option Int
  unindexedReasons : List String
  indexError : Option String
  error : Option String
deriving DecidableEq, Repr

/-- Response of POST /admin/upload. -/
structure AdminResp where
  status : Nat
  success : Bool
  event : Option String
  uploaded : Option Nat
  results : List UploadResult
  error : Option String
deriving DecidableEq, Repr

/-- The per-file body of the /admin/upload loop (index.js lines 269-340):
normalize, put to S3, index faces with the colon-mapped ExternalImageId,
and on zero indexed faces fall back to a detectFaces call. -/
def adminFileStep (env : Env) (now : Nat) (eventCode : String) (f : FileIn)
    (w : FileWorld) : UploadResult × List ExtCall :=
  if !w.pipelineOk then (⟨none, false, 0, none, [], none, some "sharp failed"⟩, [])
  else
    let safeName := safeNameOf (normalizeBaseName f)
    let key := "event-photos/" ++ eventCode ++ "/" ++ toString now ++ "-" ++ safeName
    let putCall := ExtCall.s3Put env.BUCKET key "image/jpeg"
    if !w.putOk then (⟨none, false, 0, none, [], none, some "putObject failed"⟩, [putCall])
    else
      let externalId := keyToExternalId key
      let idxCall := ExtCall.rekIndexFaces env.COLLECTION externalId env.BUCKET key
      let detCall := ExtCall.rekDetectFaces env.BUCKET key
      match w.idx with
      | .ok idx =>
        let facesIndexed := (idx.FaceRecords.getD []).length
        let unindexedReasons := (idx.UnindexedFaces.getD []).flatten
        if facesIndexed = 0 then
          match w.det with
          | .ok details =>
            (⟨some key, true, facesIndexed, some ((details.getD []).length : Int),
              unindexedReasons, none, none⟩, [putCall, idxCall, detCall])
          | .error _ =>
            (⟨some key, true, facesIndexed, some (-1), unindexedReasons, none, none⟩,
              [putCall, idxCall, detCall])
        else
          (⟨some key, true, facesIndexed, none, unindexedReasons, none, none⟩, [putCall, idxCall])
      | .error e =>
        match w.det with
        | .ok details =>
          (⟨some key, true, 0, some ((details.getD []).length : Int), [], some e, none⟩,
            [putCall, idxCall, detCall])
        | .error _ =>
          (⟨some key, true, 0, some (-1), [], some e, none⟩, [putCall, idxCall, detCall])

/-- The bearer-token extraction of index.js lines 259-260:
`auth.startsWith('Bearer ') ? auth.slice(7) : ''`. -/
def bearerToken (auth : String) : String :=
  if "Bearer ".data.isPrefixOf auth.data then ⟨auth.data.drop 7⟩ else ""

/-- Embedding of POST /admin/upload (index.js lines 256-348): token gate,
event-code sanitizing, then the per-file loop.  `now` is the Date.now()
reading used in the generated keys. -/
def adminUpload (env : Env) (now : Nat) (auth? event? : Option String)
    (files : List (FileIn × FileWorld)) : AdminResp × List ExtCall :=
  let token := bearerToken (auth?.getD "")
  if token = "" ∨ token ≠ env.ADMIN_TOKEN then
    (⟨401, false, none, none, [], some "Unauthorized"⟩, [])
  else
    let eventCode := sanitizeEvent (match event? with
      | none => "general"
      | some e => if e = "" then "general" else e)
    if files.isEmpty then (⟨400, false, none, none, [], some "No files uploaded"⟩, [])
    else
      let steps := files.map (fun fw => adminFileStep env now eventCode fw.1 fw.2)
      (⟨200, true, some eventCode, some steps.length, steps.map Prod.fst, none⟩,
        (steps.map Prod.snd).flatten)

/-- Whitespace-run collapsing of the JS whitespace regex with the global
flag: every maximal whitespace run becomes one underscore. -/
def squashWsAux : Bool → List Char → List Char
  | _, [] => []
  | prevWs, c :: rest =>
    if c.isWhitespace then
      (if prevWs then [] else ['_']) ++ squashWsAux true rest
    else c :: squashWsAux false rest

/-- The sanitizeName of the third index.js variant (lines 815-819):
collapse whitespace to underscores, then keep only word characters, dot,
hyphen, colon and SLASH (the slash stays allowed). -/
def sanitizeNameV3 (name? : Option String) (now : Nat) : String :=
  let name := match name? with
    | none => "upload-" ++ toString now ++ ".jpg"
    | some n => if n = "" then "upload-" ++ toString now ++ ".jpg" else n
  ⟨(squashWsAux false name.data).map (fun c =>
    if c.isAlphanum || c = '_' || c = '.' || c = '-' || c = ':' || c = '/' then c else '_')⟩

/-- Response of POST /upload (third index.js variant, lines 833-867). -/
structure V3UploadResp where
  status : Nat
  success : Bool
  s3Key : Option String
  indexedFaces : Option Nat
  error : Option String
deriving DecidableEq, Repr

/-- Embedding of POST /upload of the third index.js variant (lines
833-867): put to S3 then indexFaces, passing the RAW S3 key (slashes and
all) as ExternalImageId. -/
def uploadV3 (env : Env) (now : Nat) (hasFile : Bool) (event? : Option String)
    (fileName? mimetype? : Option String) (putRes : Except String Unit)
    (idx : Except String IdxOut) : V3UploadResp × List ExtCall :=
  if !hasFile then
    (⟨400, false, none, none, some "No file uploaded. Field must be 'image'."⟩, [])
  else
    let event := trimStr (event?.getD "")
    let dir := eventPrefixFn event
    let original := sanitizeNameV3 fileName? now
    let s3Key := dir ++ toString now ++ "-" ++ original
    let contentType := match mimetype? with
      | none => "image/jpeg"
      | some m => if m = "" then "image/jpeg" else m
    let putCall := ExtCall.s3Put env.BUCKET s3Key contentType
    match putRes with
    | .error e => (⟨500, false, none, none, some ("Upload/index failed: " ++ e)⟩, [putCall])
    | .ok _ =>
      let idxCall := ExtCall.rekIndexFaces env.COLLECTION s3Key env.BUCKET s3Key
      match idx with
      | .error e =>
        (⟨500, false, none, none, some ("Upload/index failed: " ++ e)⟩, [putCall, idxCall])
      | .ok o =>
        (⟨200, true, some s3Key, some (o.FaceRecords.getD []).length, none⟩, [putCall, idxCall])

/-- A verified Stripe webhook event (none models a failed signature
verification); metadataKeys is the raw session metadata keys string. -/
structure WebhookEvent where
  type : String
  metadataKeys : Option String
deriving DecidableEq, Repr

/-- Response of POST /stripe/webhook. -/
structure WebhookResp where
  status : Nat
  received : Bool
  error : Option String
deriving DecidableEq, Repr

/-- Embedding of POST /stripe/webhook (index.js lines 754-781): on a
completed checkout it copies every comma-separated metadata key from the
watermarked/ folder to the clean/ folder. -/
def stripeWebhook (env : Env) (verified : Option WebhookEvent) :
    WebhookResp × List ExtCall :=
  match verified with
  | none => (⟨400, false, some "Webhook Error: signature verification failed"⟩, [])
  | some ev =>
    if ev.type = "checkout.session.completed" then
      let items := match ev.metadataKeys with
        | some s => splitComma s
        | none => []
      (⟨200, true, none⟩, items.map (fun key =>
        ExtCall.s3Copy env.BUCKET (env.BUCKET ++ "/watermarked/" ++ key) ("clean/" ++ key)))
    else (⟨200, true, none⟩, [])

/-- Outcome of the node-fetch call of /match-by-url. -/
structure FetchOut where
  ok : Bool
deriving DecidableEq, Repr

/-- Response of /match and /match-by-url (top-1 match handlers). -/
structure MatchOneResp where
  status : Nat
  matchFound : Bool
  imageUrl : Option String
  error : Option String
deriving DecidableEq, Repr

/-- Embedding of POST /match-by-url (part_000 lines 183-223): fetches an
arbitrary URL over HTTP, then searches the face collection with the fetched
bytes. -/
def matchByUrl (env : Env) (url? event? : Option String)
    (fetchRes : Except String FetchOut) (search : Except String (List FaceMatch)) :
    MatchOneResp × List ExtCall :=
  match url? with
  | none => (⟨400, false, none, some "Missing or invalid url"⟩, [])
  | some url =>
    if url = "" then (⟨400, false, none, some "Missing or invalid url"⟩, [])
    else
      match fetchRes with
      | .error e =>
        (⟨500, false, none, some ("match-by-url failed: " ++ e)⟩, [ExtCall.httpFetch url])
      | .ok r =>
        if !r.ok then (⟨400, false, none, some "Could not fetch url"⟩, [ExtCall.httpFetch url])
        else
          match search with
          | .error e =>
            (⟨500, false, none, some ("match-by-url failed: " ++ e)⟩,
              [ExtCall.httpFetch url, ExtCall.rekSearchFaces env.COLLECTION 85 5])
          | .ok ms =>
            let wanted? := match event? with
              | some e => if e = "" then none else some (colonPrefixFn (eventPrefixFn e))
              | none => none
            let matchList := match wanted? with
              | some p => ms.filter (fun m => p.data.isPrefixOf (eidOf m).data)
              | none => ms
            match sortMatchesDesc matchList with
            | [] =>
              (⟨200, false, none, none⟩,
                [ExtCall.httpFetch url, ExtCall.rekSearchFaces env.COLLECTION 85 5])
            | top :: _ =>
              let s3Key := externalIdToKey (eidOf top)
              (⟨200, true, some ("/proxy-image?key=" ++ encodeURIComponent s3Key), none⟩,
                [ExtCall.httpFetch url, ExtCall.rekSearchFaces env.COLLECTION 85 5])

/-- The lazily initialized Stripe client of part_001 lines 12-22, the only
server-local mutable state: the memo cell. -/
structure StripeClient where
  secret : String
deriving DecidableEq, Repr

/-- Embedding of getStripe (part_001 lines 13-22): return the memoized
client if set, else construct one from STRIPE_SECRET (throwing when the
secret is missing) and memoize it. -/
def getStripe (st : Option StripeClient) (secret : String) :
    Except String (StripeClient × Option StripeClient) :=
  match st with
  | some c => .ok (c, some c)
  | none =>
    if secret = "" then .error "Stripe not configured: missing STRIPE_SECRET env var"
    else .ok (⟨secret⟩, some ⟨secret⟩)

/-- Request body of part_001's POST /create-checkout-session. -/
structure P1CheckoutBody where
  key : Option String
  priceCents : Option Nat
deriving DecidableEq, Repr

/-- The create-session parameters of part_001 lines 237-251. -/
def p1Params (env : Env) (key : String) (amount : Nat) : SessionCreateParams where
  productName := "HD Photo Download"
  unit_amount := amount
  quantity := 1
  success_url := env.FRONTEND_URL ++ "/thanks.html?session_id=\x7bCHECKOUT_SESSION_ID\x7d"
  cancel_url := env.FRONTEND_URL ++ "/find-gallery.html"
  metadataKeys := none
  metadataS3Key := some key

/-- Embedding of part_001's POST /create-checkout-session (lines 230-258),
threading the memo cell of getStripe: returns (response, new memo state)
and the trace; the create call records which client secret was used. -/
def createCheckoutP1 (env : Env) (st : Option StripeClient)
    (body : Option P1CheckoutBody) (createRes : Option String) :
    (CheckoutResp × Option StripeClient) × List ExtCall :=
  match getStripe st env.STRIPE_SECRET with
  | .error e => ((⟨500, none, some ("Failed to create checkout session: " ++ e)⟩, st), [])
  | .ok (client, st2) =>
    let b := body.getD ⟨none, none⟩
    match b.key with
    | none => ((⟨400, none, some "Missing key"⟩, st2), [])
    | some key =>
      if key = "" then ((⟨400, none, some "Missing key"⟩, st2), [])
      else
        let amount := b.priceCents.getD 500
        let p := p1Params env key amount
        match createRes with
        | some url => ((⟨200, some url, none⟩, st2), [ExtCall.stripeCreate client.secret p])
        | none =>
          ((⟨500, none, some "Failed to create checkout session: create failed"⟩, st2),
            [ExtCall.stripeCreate client.secret p])


/-- The shared tail of both index.js /match-gallery variants: map the
matches to results, drop empty keys, de-duplicate by key and sort. -/
def galleryUnique (pre : String) (ms : List FaceMatch) : List MatchResult :=
  sortBySimDesc (dedupeByKey [] ((ms.map (toResult pre)).filter (fun r => r.key ≠ "")))

end LNP

namespace LNP

/-- Prefix characterization of List.isPrefixOf over characters. -/
theorem isPrefixOf_append (l1 l2 : List Char) (h : l1.isPrefixOf l2 = true) :
    ∃ t, l2 = l1 ++ t := by
  induction l1 generalizing l2 with
  | nil => exact ⟨l2, rfl⟩
  | cons a as ih =>
    cases l2 with
    | nil => simp [List.isPrefixOf] at h
    | cons b bs =>
      simp only [List.isPrefixOf, Bool.and_eq_true, beq_iff_eq] at h
      obtain ⟨rfl, ht⟩ := h
      obtain ⟨t, rfl⟩ := ih bs ht
      exact ⟨t, rfl⟩

/-- Appending strings appends their character data. -/
theorem data_append (a b : String) : (a ++ b).data = a.data ++ b.data := rfl

/-- A non-empty extracted bearer token pins the whole Authorization
header: it must be exactly 'Bearer ' followed by the token. -/
theorem bearer_eq (auth t : String) (h1 : bearerToken auth ≠ "") (h2 : bearerToken auth = t) :
    auth = "Bearer " ++ t := by
  unfold bearerToken at h1 h2
  by_cases hp : "Bearer ".data.isPrefixOf auth.data
  · rw [if_pos hp] at h2
    obtain ⟨rest, hrest⟩ := isPrefixOf_append _ _ hp
    have hlen : ("Bearer ".data).length = 7 := rfl
    have hdrop : auth.data.drop 7 = rest := by
      rw [hrest, ← hlen, List.drop_left]
    have ht : t.data = rest := by rw [← h2]; exact hdrop
    apply String.ext
    rw [data_append, hrest, ht]
  · rw [if_neg hp] at h1
    exact absurd rfl h1

/-- Inserting into the similarity-sorted list is a permutation of cons. -/
theorem insertDesc_perm (r : MatchResult) (l : List MatchResult) :
    (insertDesc r l).Perm (r :: l) := by
  induction l with
  | nil => exact List.Perm.refl _
  | cons x xs ih =>
    simp only [insertDesc]
    split
    · exact List.Perm.refl _
    · exact (ih.cons x).trans (List.Perm.swap r x xs)

/-- The similarity sort permutes its input. -/
theorem sortBySimDesc_perm (l : List MatchResult) : (sortBySimDesc l).Perm l := by
  induction l with
  | nil => exact List.Perm.refl _
  | cons r rs ih => exact (insertDesc_perm r (sortBySimDesc rs)).trans (ih.cons r)

/-- De-duplicated results come from the input list. -/
theorem dedupe_subset (seen : List String) (rs : List MatchResult) :
    ∀ r ∈ dedupeByKey seen rs, r ∈ rs := by
  induction rs generalizing seen with
  | nil => intro r hr; simp [dedupeByKey] at hr
  | cons x xs ih =>
    intro r hr
    simp only [dedupeByKey] at hr
    by_cases hx : x.key ∈ seen
    · rw [if_pos hx] at hr
      exact List.mem_cons_of_mem _ (ih seen r hr)
    · rw [if_neg hx] at hr
      rcases List.mem_cons.1 hr with rfl | hr2
      · exact List.mem_cons_self _ _
      · exact List.mem_cons_of_mem _ (ih _ r hr2)

/-- Key membership after de-duplication: present iff not already seen and
present among the input keys. -/
theorem mem_map_key_dedupe (seen : List String) (rs : List MatchResult) (k : String) :
    k ∈ (dedupeByKey seen rs).map MatchResult.key ↔
      k ∉ seen ∧ k ∈ rs.map MatchResult.key := by
  induction rs generalizing seen with
  | nil => simp [dedupeByKey]
  | cons r rs ih =>
    simp only [dedupeByKey]
    split
    · rename_i hseen
      rw [ih]
      by_cases hk : k = r.key
      · subst hk; simp [hseen]
      · simp [hk]
    · rename_i hseen
      simp only [List.map_cons, List.mem_cons]
      rw [ih]
      by_cases hk : k = r.key
      · subst hk; simp [hseen]
      · simp [hk, List.mem_cons]

/-- De-duplication leaves no duplicate keys. -/
theorem nodup_map_key_dedupe (seen : List String) (rs : List MatchResult) :
    ((dedupeByKey seen rs).map MatchResult.key).Nodup := by
  induction rs generalizing seen with
  | nil => simp [dedupeByKey]
  | cons r rs ih =>
    simp only [dedupeByKey]
    split
    · exact ih seen
    · simp only [List.map_cons, List.nodup_cons]
      refine ⟨fun hmem => ?_, ih _⟩
      rw [mem_map_key_dedupe] at hmem
      exact hmem.1 (List.mem_cons_self _ _)

/-- The skip-loop of the second variant equals map plus filter. -/
theorem resultsV2_eq (pre : String) (ms : List FaceMatch) :
    resultsV2 pre ms = (ms.map (toResult pre)).filter (fun r => r.key ≠ "") := by
  induction ms with
  | nil => rfl
  | cons m ms ih =>
    simp only [resultsV2, List.map_cons, List.filter_cons]
    by_cases hk : externalIdToKey (eidOf m) = ""
    · simp [toResult, hk, ih]
    · simp [toResult, hk, ih]

/-- Key membership in the filtered result list. -/
theorem mem_map_key_filtered (pre : String) (ms : List FaceMatch) (k : String) :
    k ∈ ((ms.map (toResult pre)).filter (fun r => r.key ≠ "")).map MatchResult.key ↔
      k ≠ "" ∧ ∃ m ∈ ms, externalIdToKey (eidOf m) = k := by
  constructor
  · intro hmem
    rcases List.mem_map.1 hmem with ⟨r, hr, rfl⟩
    rcases List.mem_filter.1 hr with ⟨hrm, hkey⟩
    rcases List.mem_map.1 hrm with ⟨m, hm, rfl⟩
    refine ⟨by simpa [toResult] using hkey, m, hm, rfl⟩
  · rintro ⟨hne, m, hm, hk⟩
    apply List.mem_map.2
    refine ⟨toResult pre m, List.mem_filter.2 ⟨List.mem_map_of_mem _ hm, ?_⟩, hk⟩
    simpa [toResult, hk] using hne

/-- The three facts C3 needs about the shared gallery tail. -/
theorem galleryUnique_spec (pre : String) (ms : List FaceMatch) :
    ((galleryUnique pre ms).map MatchResult.key).Nodup ∧
    (∀ k, k ∈ (galleryUnique pre ms).map MatchResult.key ↔
      k ≠ "" ∧ ∃ m ∈ ms, externalIdToKey (eidOf m) = k) ∧
    (∀ r ∈ galleryUnique pre ms, r.imageUrl = pre ++ encodeURIComponent r.key) := by
  have hperm := (sortBySimDesc_perm
    (dedupeByKey [] ((ms.map (toResult pre)).filter (fun r => r.key ≠ "")))).map MatchResult.key
  refine ⟨hperm.nodup_iff.mpr (nodup_map_key_dedupe _ _), fun k => ?_, fun r hr => ?_⟩
  · rw [galleryUnique, hperm.mem_iff, mem_map_key_dedupe, mem_map_key_filtered]
    simp
  · have hr2 : r ∈ dedupeByKey [] ((ms.map (toResult pre)).filter (fun r => r.key ≠ "")) :=
      (sortBySimDesc_perm _).mem_iff.mp hr
    have hr3 := dedupe_subset _ _ _ hr2
    rcases List.mem_map.1 (List.mem_filter.1 hr3).1 with ⟨m, _, rfl⟩
    rfl

/-- Length positivity transfers through the sort and the key map. -/
theorem galleryUnique_pos (pre : String) (ms : List FaceMatch) :
    0 < (galleryUnique pre ms).length ↔ ∃ m ∈ ms, externalIdToKey (eidOf m) ≠ "" := by
  rw [List.length_pos_iff_exists_mem]
  constructor
  · rintro ⟨r, hr⟩
    have hk : r.key ∈ (galleryUnique pre ms).map MatchResult.key := List.mem_map_of_mem _ hr
    rcases ((galleryUnique_spec pre ms).2.1 r.key).mp hk with ⟨hne, m, hm, hkey⟩
    exact ⟨m, hm, by rw [hkey]; exact hne⟩
  · rintro ⟨m, hm, hne⟩
    have hk : externalIdToKey (eidOf m) ∈ (galleryUnique pre ms).map MatchResult.key :=
      ((galleryUnique_spec pre ms).2.1 _).mpr ⟨hne, m, hm, rfl⟩
    rcases List.mem_map.1 hk with ⟨r, hr, _⟩
    exact ⟨r, hr⟩

/-- Characters survive the slash-to-colon round trip when they are not a
colon. -/
theorem roundtrip_char (c : Char) (h : c ≠ ':') :
    (if (if c = '/' then ':' else c) = ':' then '/' else if c = '/' then ':' else c) = c := by
  by_cases hc : c = '/'
  · simp [hc]
  · simp [hc, h]

/-- C9: the key/ExternalImageId mapping round-trips on every key without a
colon, and produces an id without slashes; the admin-upload event sanitizer
keeps colons, and a key holding a colon need not round-trip. -/
theorem c9_roundtrip :
    (∀ s : String, ':' ∉ s.data →
      externalIdToKey (keyToExternalId s) = s ∧ '/' ∉ (keyToExternalId s).data) ∧
    sanitizeEvent "a:b" = "a:b" ∧
    externalIdToKey (keyToExternalId "event-photos/a:b/1-x.jpg") ≠
      "event-photos/a:b/1-x.jpg" := by
  refine ⟨?_, by decide, by decide⟩
  intro s h
  constructor
  · apply String.ext
    show (s.data.map _).map _ = s.data
    rw [List.map_map]
    have : s.data.map ((fun c => if c = ':' then '/' else c) ∘
        (fun c => if c = '/' then ':' else c)) = s.data.map id := by
      apply List.map_congr_left
      intro c hc
      exact roundtrip_char c (fun hcol => h (hcol ▸ hc))
    simpa using this
  · intro hmem
    rcases List.mem_map.1 hmem with ⟨c, _, hfc⟩
    by_cases hc : c = '/' <;> simp [hc] at hfc

/-- C10 (amended): the album checkout charges ALBUM_CENTS from ALBUM_MIN
truthy keys and n times PRICE_SINGLE below that, stores at most the first
100 keys in metadata, and under the default prices the charge is monotone
non-decreasing in the number of keys. -/
theorem c10_album_pricing (env : Env) (keys : List String) (u : Option String)
    (hs : env.STRIPE_SECRET ≠ "")
    (hne : (keys.filter (fun k => k ≠ "")).length ≠ 0) :
    (createCheckoutV1 env (some { tier := some "album", key := none, keys := some keys }) u).2 =
      [ExtCall.stripeCreate env.STRIPE_SECRET (albumParams env (keys.filter (fun k => k ≠ "")))] ∧
    (albumParams env (keys.filter (fun k => k ≠ ""))).unit_amount =
      (if (keys.filter (fun k => k ≠ "")).length ≥ env.ALBUM_MIN
        then env.ALBUM_CENTS else (keys.filter (fun k => k ≠ "")).length * env.PRICE_SINGLE) ∧
    (albumParams env (keys.filter (fun k => k ≠ ""))).metadataKeys =
      some ((keys.filter (fun k => k ≠ "")).take 100) ∧
    ((keys.filter (fun k => k ≠ "")).take 100).length ≤ 100 ∧
    (∀ m n : Nat, m ≤ n → albumPriceCents defaultEnv m ≤ albumPriceCents defaultEnv n) := by
  have h2 : ¬ ∀ a ∈ keys, a = "" := by
    intro hall
    apply hne
    rw [List.length_eq_zero]
    exact List.filter_eq_nil_iff.mpr fun a ha => by simp [hall a ha]
  refine ⟨?_, rfl, rfl, List.length_take_le 100 _, ?_⟩
  · cases u <;> simp [createCheckoutV1, hs, h2]
  · intro m n hmn
    unfold albumPriceCents defaultEnv
    dsimp only
    by_cases hm : m ≥ 5 <;> by_cases hn : n ≥ 5 <;> simp [hm, hn] <;> omega

/-- Witness for C10 at a concrete five-key album request. -/
theorem c10_album_pricing_witness :
    (createCheckoutV1 { defaultEnv with STRIPE_SECRET := "sk" }
      (some { tier := some "album", key := none, keys := some ["a", "b", "c", "d", "e"] })
      (some "https://checkout")).2 =
      [ExtCall.stripeCreate "sk" (albumParams { defaultEnv with STRIPE_SECRET := "sk" }
        ["a", "b", "c", "d", "e"])] :=
  (c10_album_pricing { defaultEnv with STRIPE_SECRET := "sk" } ["a", "b", "c", "d", "e"]
    (some "https://checkout") (by decide) (by decide)).1

/-- C10 counterexample: with the default prices an album of ALBUM_MIN
photos does not cost less than ALBUM_MIN - 1 singles (999 versus 796
cents), so the charged amount is monotone, not non-monotone. -/
theorem c10_counterexample :
    (albumParams { defaultEnv with STRIPE_SECRET := "sk" }
      ["a", "b", "c", "d", "e"]).unit_amount = defaultEnv.ALBUM_CENTS ∧
    ¬ albumPriceCents defaultEnv defaultEnv.ALBUM_MIN <
        (defaultEnv.ALBUM_MIN - 1) * defaultEnv.PRICE_SINGLE := by
  exact ⟨rfl, by decide⟩


/-- The first /match-gallery variant on a successful search is the shared
gallery tail with a relative preview URL. -/
theorem matchGalleryV1_ok (env : Env) (ms : List FaceMatch) :
    (matchGalleryV1 env true (.ok ()) (.ok ms)).1 =
      ⟨200, decide (0 < (galleryUnique "/preview-image?key=" ms).length),
        galleryUnique "/preview-image?key=" ms, none, none⟩ := rfl

/-- The second /match-gallery variant on a successful search is the shared
gallery tail with the API_BASE preview URL. -/
theorem matchGalleryV2_ok (env : Env) (ms : List FaceMatch) :
    (matchGalleryV2 env true (.ok ()) (.ok ms)).1 =
      ⟨200, decide (0 < (galleryUnique (env.API_BASE ++ "/preview-image?key=") ms).length),
        galleryUnique (env.API_BASE ++ "/preview-image?key=") ms, none, none⟩ := by
  cases ms with
  | nil => rfl
  | cons m ms =>
    simp only [matchGalleryV2, galleryUnique, Bool.not_true, List.isEmpty_cons,
      Bool.false_eq_true, if_false, resultsV2_eq]

/-- C3 (amended): in both index.js /match-gallery variants, matchFound is
true iff some match maps to a non-empty key, the results carry each such
distinct key exactly once, and every entry's imageUrl is the preview URL of
its key.  (The part_000 variant does not satisfy this; see the
counterexample.) -/
theorem c3_match_gallery :
    (∀ (env : Env) (ms : List FaceMatch),
      ((matchGalleryV1 env true (.ok ()) (.ok ms)).1.matchFound = true ↔
        ∃ m ∈ ms, externalIdToKey (eidOf m) ≠ "") ∧
      ((matchGalleryV1 env true (.ok ()) (.ok ms)).1.results.map MatchResult.key).Nodup ∧
      (∀ k, k ∈ (matchGalleryV1 env true (.ok ()) (.ok ms)).1.results.map MatchResult.key ↔
        k ≠ "" ∧ ∃ m ∈ ms, externalIdToKey (eidOf m) = k) ∧
      (∀ r ∈ (matchGalleryV1 env true (.ok ()) (.ok ms)).1.results,
        r.imageUrl = "/preview-image?key=" ++ encodeURIComponent r.key)) ∧
    (∀ (env : Env) (ms : List FaceMatch),
      ((matchGalleryV2 env true (.ok ()) (.ok ms)).1.matchFound = true ↔
        ∃ m ∈ ms, externalIdToKey (eidOf m) ≠ "") ∧
      ((matchGalleryV2 env true (.ok ()) (.ok ms)).1.results.map MatchResult.key).Nodup ∧
      (∀ k, k ∈ (matchGalleryV2 env true (.ok ()) (.ok ms)).1.results.map MatchResult.key ↔
        k ≠ "" ∧ ∃ m ∈ ms, externalIdToKey (eidOf m) = k) ∧
      (∀ r ∈ (matchGalleryV2 env true (.ok ()) (.ok ms)).1.results,
        r.imageUrl = (env.API_BASE ++ "/preview-image?key=") ++ encodeURIComponent r.key)) := by
  constructor
  · intro env ms
    obtain ⟨hnd, hkm, hurl⟩ := galleryUnique_spec "/preview-image?key=" ms
    rw [matchGalleryV1_ok]
    exact ⟨by simpa using galleryUnique_pos "/preview-image?key=" ms, hnd, hkm, hurl⟩
  · intro env ms
    obtain ⟨hnd, hkm, hurl⟩ := galleryUnique_spec (env.API_BASE ++ "/preview-image?key=") ms
    rw [matchGalleryV2_ok]
    exact ⟨by simpa using galleryUnique_pos (env.API_BASE ++ "/preview-image?key=") ms, hnd, hkm, hurl⟩

/-- C3 counterexample: the part_000 /match-gallery reports matchFound on a
single match whose ExternalImageId maps to the EMPTY key, and returns that
empty-key entry (with a /proxy-image URL). -/
theorem c3_counterexample :
    (matchGalleryP0 defaultEnv none true (.ok [⟨some ⟨some ""⟩, some 90⟩])).1.matchFound = true ∧
    (matchGalleryP0 defaultEnv none true
      (.ok [⟨some ⟨some ""⟩, some 90⟩])).1.results.map MatchResult.key = [""] ∧
    externalIdToKey (eidOf ⟨some ⟨some ""⟩, some 90⟩) = "" :=
  ⟨rfl, rfl, rfl⟩

/-- C2 (amended): successful watermark-pipeline responses of the three
/preview-image variants, the original-serving fallback of the second
variant, and the raw bypass of the part_001 variant. -/
theorem c2_preview_watermark :
    (∀ (env : Env) (key : String) (img : ImgContent) (meta : ImgMeta) (sOk : Bool),
      (previewImageV1 env (some key) (some img) meta sOk).1.status = 200 →
      (previewImageV1 env (some key) (some img) meta sOk).1.contentType = some "image/jpeg" ∧
      (previewImageV1 env (some key) (some img) meta sOk).1.body =
        some (ImgContent.jpegEnc (ImgContent.composited (ImgContent.resized img
          (min (meta.width.getD env.PREVIEW_MAX_W) env.PREVIEW_MAX_W)) env.WM_TEXT)
          env.PREVIEW_JPEG_QUALITY)) ∧
    (∀ (env : Env) (key : String) (img : ImgContent) (got2 : Option ImgContent),
      (previewImageV2 env (some key) (some img) got2 true).1.body =
        some (ImgContent.jpegEnc (ImgContent.composited (ImgContent.resized img
          env.PREVIEW_MAX_W) env.WM_TEXT) env.PREVIEW_JPEG_QUALITY)) ∧
    (∀ (env : Env) (key : String) (got1 : Option ImgContent) (o2 : ImgContent),
      (previewImageV2 env (some key) got1 (some o2) false).1 =
        ⟨200, some "image/jpeg", some o2, none⟩) ∧
    (∀ (env : Env) (key : String) (gotRaw : Option ImgContent) (img : ImgContent),
      (previewImageP1 env (some key) none gotRaw (some img) true).1.body =
        some (ImgContent.composited (ImgContent.jpegEnc img 80) "LastNightPix.com • PREVIEW")) ∧
    (∀ (env : Env) (key raw : String) (img : ImgContent) (got : Option ImgContent),
      raw ≠ "" →
      (previewImageP1 env (some key) (some raw) (some img) got true).1 =
        ⟨200, some "image/jpeg", some img, none⟩) := by
  refine ⟨?_, ?_, ?_, ?_, ?_⟩
  · intro env key img meta sOk h
    cases sOk
    · simp [previewImageV1] at h
    · exact ⟨rfl, rfl⟩
  · intro env key img got2
    rfl
  · intro env key got1 o2
    cases got1 <;> rfl
  · intro env key gotRaw img
    rfl
  · intro env key raw img got h
    simp [previewImageP1, h]

/-- C2 counterexample: when the watermark pipeline fails, the second
/preview-image variant answers 200 with the ORIGINAL stored image,
unwatermarked and unresized. -/
theorem c2_counterexample :
    (previewImageV2 defaultEnv (some "event-photos/e/1-a.jpg")
      (some (ImgContent.stored "bucket" "event-photos/e/1-a.jpg"))
      (some (ImgContent.stored "bucket" "event-photos/e/1-a.jpg")) false).1 =
    ⟨200, some "image/jpeg", some (ImgContent.stored "bucket" "event-photos/e/1-a.jpg"), none⟩ :=
  rfl

/-- C1 (amended): the session-based handlers answer an error status with no
content unless the referenced session is retrieved and paid, while the
key-based /download and /proxy-image hand out a signed URL or the original
with no session involved at all. -/
theorem c1_paid_gate (env : Env) (sid? : Option String)
    (retr : Except String (Option StripeSession)) (got : Option ImgContent)
    (k : String) (body : ImgContent) (h : ¬ paidRetr retr) :
    (400 ≤ (purchaseSession env sid? retr).1.status ∧
      (purchaseSession env sid? retr).1.items = []) ∧
    (400 ≤ (downloadP1 env sid? retr got).1.status ∧
      (downloadP1 env sid? retr got).1.body = none ∧
      (downloadP1 env sid? retr got).1.url = none) ∧
    (downloadV1 env (some k)).1 = ⟨200, some ⟨env.BUCKET, k, 60⟩, none, none⟩ ∧
    (proxyImage env (some k) (some body)).1 = ⟨200, none, some body, none⟩ := by
  refine ⟨?_, ?_, rfl, rfl⟩
  · unfold purchaseSession
    by_cases hS : env.STRIPE_SECRET = ""
    · rw [if_pos hS]; exact ⟨(by norm_num : (400 : Nat) ≤ 500), rfl⟩
    · rw [if_neg hS]
      rcases sid? with _ | sid
      · exact ⟨(by norm_num : (400 : Nat) ≤ 400), rfl⟩
      · dsimp only
        by_cases hsid : sid = ""
        · rw [if_pos hsid]; exact ⟨(by norm_num : (400 : Nat) ≤ 400), rfl⟩
        · rw [if_neg hsid]
          rcases retr with msg | os
          · exact ⟨(by norm_num : (400 : Nat) ≤ 500), rfl⟩
          · rcases os with _ | s
            · exact ⟨(by norm_num : (400 : Nat) ≤ 403), rfl⟩
            · dsimp only
              by_cases hp : s.payment_status = "paid"
              · exact absurd ⟨s, rfl, hp⟩ h
              · rw [if_pos hp]; exact ⟨(by norm_num : (400 : Nat) ≤ 403), rfl⟩
  · unfold downloadP1
    by_cases hS : env.STRIPE_SECRET = ""
    · rw [if_pos hS]; exact ⟨(by norm_num : (400 : Nat) ≤ 500), rfl, rfl⟩
    · rw [if_neg hS]
      rcases sid? with _ | sid
      · exact ⟨(by norm_num : (400 : Nat) ≤ 400), rfl, rfl⟩
      · dsimp only
        by_cases hsid : sid = ""
        · rw [if_pos hsid]; exact ⟨(by norm_num : (400 : Nat) ≤ 400), rfl, rfl⟩
        · rw [if_neg hsid]
          rcases retr with msg | os
          · exact ⟨(by norm_num : (400 : Nat) ≤ 500), rfl, rfl⟩
          · rcases os with _ | s
            · exact ⟨(by norm_num : (400 : Nat) ≤ 402), rfl, rfl⟩
            · dsimp only
              by_cases hp : s.payment_status = "paid"
              · exact absurd ⟨s, rfl, hp⟩ h
              · rw [if_pos hp]; exact ⟨(by norm_num : (400 : Nat) ≤ 402), rfl, rfl⟩

/-- Witness for C1: with a missing session and a failing retrieve, the
purchase handler answers an error and releases nothing. -/
theorem c1_paid_gate_witness :
    400 ≤ (purchaseSession defaultEnv none (.error "no session")).1.status ∧
    (purchaseSession defaultEnv none (.error "no session")).1.items = [] :=
  (c1_paid_gate defaultEnv none (.error "no session") none "k"
    (ImgContent.stored "b" "k") (by rintro ⟨s, hs, -⟩; exact Except.noConfusion hs)).1

/-- C1 counterexample: GET /download (index.js lines 237-253) answers 200
with a signed full-resolution URL for a request that references NO checkout
session at all, and GET /proxy-image streams the original the same way. -/
theorem c1_counterexample :
    downloadV1 defaultEnv (some "event-photos/e/1-x.jpg") =
      (⟨200, some ⟨"bucket", "event-photos/e/1-x.jpg", 60⟩, none, none⟩, []) ∧
    (proxyImage defaultEnv (some "event-photos/e/1-x.jpg")
      (some (ImgContent.stored "bucket" "event-photos/e/1-x.jpg"))).1 =
      ⟨200, none, some (ImgContent.stored "bucket" "event-photos/e/1-x.jpg"), none⟩ :=
  ⟨rfl, rfl⟩


/-- C4 (code evaluation at the failing input): the third index.js variant's
POST /upload puts the object and then passes the RAW S3 key — slashes
included — as ExternalImageId, instead of the colon-mapped id the rest of
the repository uses. -/
theorem c4_raw_external_id :
    (uploadV3 defaultEnv 1755 true none (some "photo.jpg") (some "image/jpeg")
      (.ok ()) (.ok ⟨some [], none⟩)).2 =
      [ExtCall.s3Put defaultEnv.BUCKET "event-photos/default/1755-photo.jpg" "image/jpeg",
       ExtCall.rekIndexFaces defaultEnv.COLLECTION "event-photos/default/1755-photo.jpg"
         defaultEnv.BUCKET "event-photos/default/1755-photo.jpg"] ∧
    '/' ∈ "event-photos/default/1755-photo.jpg".data ∧
    keyToExternalId "event-photos/default/1755-photo.jpg" =
      "event-photos:default:1755-photo.jpg" :=
  ⟨rfl, by decide, by decide⟩

/-- C5: /admin/upload answers 401 with success false and performs no
external call whenever the Authorization header is not exactly 'Bearer '
followed by the non-empty admin token; in particular a blank ADMIN_TOKEN
rejects every request. -/
theorem c5_admin_auth_gate :
    (∀ (env : Env) (now : Nat) (auth? event? : Option String)
      (files : List (FileIn × FileWorld)),
      ¬ (auth?.getD "" = "Bearer " ++ env.ADMIN_TOKEN ∧ env.ADMIN_TOKEN ≠ "") →
      (adminUpload env now auth? event? files).1.status = 401 ∧
      (adminUpload env now auth? event? files).1.success = false ∧
      (adminUpload env now auth? event? files).2 = []) ∧
    (∀ (env : Env) (now : Nat) (auth? event? : Option String)
      (files : List (FileIn × FileWorld)),
      env.ADMIN_TOKEN = "" →
      (adminUpload env now auth? event? files).1.status = 401 ∧
      (adminUpload env now auth? event? files).1.success = false ∧
      (adminUpload env now auth? event? files).2 = []) := by
  have main : ∀ (env : Env) (now : Nat) (auth? event? : Option String)
      (files : List (FileIn × FileWorld)),
      ¬ (auth?.getD "" = "Bearer " ++ env.ADMIN_TOKEN ∧ env.ADMIN_TOKEN ≠ "") →
      (adminUpload env now auth? event? files).1.status = 401 ∧
      (adminUpload env now auth? event? files).1.success = false ∧
      (adminUpload env now auth? event? files).2 = [] := by
    intro env now auth? event? files h
    by_cases hc : bearerToken (auth?.getD "") = "" ∨
        bearerToken (auth?.getD "") ≠ env.ADMIN_TOKEN
    · simp only [adminUpload]
      rw [if_pos hc]
      exact ⟨rfl, rfl, rfl⟩
    · push_neg at hc
      exact absurd ⟨bearer_eq _ _ hc.1 hc.2, fun hT => hc.1 (by rw [hc.2, hT])⟩ h
  exact ⟨main, fun env now a? e? fs hT => main env now a? e? fs (fun hand => hand.2 hT)⟩

/-- Witness for the two C5 implications at a concrete rejected request. -/
theorem c5_admin_auth_gate_witness :
    (adminUpload { defaultEnv with ADMIN_TOKEN := "tok" } 7 (some "Bearer wrong") none
      []).1.status = 401 ∧
    (adminUpload defaultEnv 7 (some "Bearer tok") none []).1.status = 401 :=
  ⟨(c5_admin_auth_gate.1 { defaultEnv with ADMIN_TOKEN := "tok" } 7 (some "Bearer wrong") none []
      (by rintro ⟨heq, -⟩; exact absurd heq (by decide))).1,
   (c5_admin_auth_gate.2 defaultEnv 7 (some "Bearer tok") none [] rfl).1⟩

/-- C7 (amended): every call any embedded handler can make has one of nine
kinds — the six the spec lists plus face detection, object copy and a raw
HTTP fetch — and each of the nine kinds does occur in a run. -/
theorem c7_surface :
    (∀ c : ExtCall, kindOf c ∈ actualKinds) ∧
    (∀ k ∈ claimedKinds, k ∈ actualKinds) ∧
    ExtKind.detectFaces ∉ claimedKinds ∧
    ExtKind.copy ∉ claimedKinds ∧
    ExtKind.fetch ∉ claimedKinds ∧
    ExtKind.put ∈ ((uploadV3 defaultEnv 1 true none (some "p.jpg") none (.ok ())
      (.ok ⟨some ["f"], none⟩)).2.map kindOf) ∧
    ExtKind.indexFaces ∈ ((uploadV3 defaultEnv 1 true none (some "p.jpg") none (.ok ())
      (.ok ⟨some ["f"], none⟩)).2.map kindOf) ∧
    ExtKind.get ∈ ((previewImageV1 defaultEnv (some "k")
      (some (ImgContent.stored "bucket" "k")) ⟨some 100, some 100⟩ true).2.map kindOf) ∧
    ExtKind.searchFaces ∈ ((matchGalleryV1 defaultEnv true (.ok ()) (.ok [])).2.map kindOf) ∧
    ExtKind.createSession ∈ ((createCheckoutV1 { defaultEnv with STRIPE_SECRET := "sk" }
      (some ⟨some "single", some "k", none⟩) (some "u")).2.map kindOf) ∧
    ExtKind.retrieveSession ∈ ((purchaseSession { defaultEnv with STRIPE_SECRET := "sk" }
      (some "cs_1") (.error "e")).2.map kindOf) ∧
    ExtKind.detectFaces ∈ ((adminUpload { defaultEnv with ADMIN_TOKEN := "t" } 1
      (some "Bearer t") none [(⟨some "p.jpg", some "image/jpeg", "c"⟩,
        ⟨true, true, .ok ⟨some [], none⟩, .ok (some [])⟩)]).2.map kindOf) ∧
    ExtKind.copy ∈ ((stripeWebhook defaultEnv
      (some ⟨"checkout.session.completed", some "a"⟩)).2.map kindOf) ∧
    ExtKind.fetch ∈ ((matchByUrl defaultEnv (some "http://x") none (.ok ⟨true⟩)
      (.ok [])).2.map kindOf) := by
  refine ⟨fun c => ?_, by decide, by decide, by decide, by decide,
    by decide, by decide, by decide, by decide, by decide, by decide, by decide,
    by decide, by decide⟩
  cases c <;> simp [kindOf, actualKinds]

/-- C7 counterexample: the call surface is NOT only the six listed kinds:
face detection, an object copy and a raw HTTP fetch all occur in handler
runs yet none of them is in the claimed list. -/
theorem c7_counterexample :
    ExtKind.detectFaces ∈ ((adminUpload { defaultEnv with ADMIN_TOKEN := "t" } 2
      (some "Bearer t") none [(⟨some "q.jpg", some "image/jpeg", "d"⟩,
        ⟨true, true, .ok ⟨some [], none⟩, .ok (some [])⟩)]).2.map kindOf) ∧
    ExtKind.detectFaces ∉ claimedKinds ∧
    ExtKind.copy ∈ ((stripeWebhook defaultEnv
      (some ⟨"checkout.session.completed", some "b"⟩)).2.map kindOf) ∧
    ExtKind.copy ∉ claimedKinds ∧
    ExtKind.fetch ∈ ((matchByUrl defaultEnv (some "http://y") none (.ok ⟨true⟩)
      (.ok [])).2.map kindOf) ∧
    ExtKind.fetch ∉ claimedKinds := by
  refine ⟨by decide, by decide, by decide, by decide, by decide, by decide⟩

/-- C8 (amended): the memoized Stripe client — the only server-local
mutable state — never changes a response: on the reachable memo states the
handler result (response, new state and trace) is identical, and the memo
stays within the reachable states. -/
theorem c8_memo_independence (env : Env) (body : Option P1CheckoutBody)
    (createRes : Option String) (h : env.STRIPE_SECRET ≠ "") :
    createCheckoutP1 env none body createRes =
      createCheckoutP1 env (some ⟨env.STRIPE_SECRET⟩) body createRes ∧
    (∀ st : Option StripeClient, st = none ∨ st = some ⟨env.STRIPE_SECRET⟩ →
      (createCheckoutP1 env st body createRes).1.2 = none ∨
      (createCheckoutP1 env st body createRes).1.2 = some ⟨env.STRIPE_SECRET⟩) := by
  have hG : ∀ st : Option StripeClient, st = none ∨ st = some ⟨env.STRIPE_SECRET⟩ →
      getStripe st env.STRIPE_SECRET =
        .ok (⟨env.STRIPE_SECRET⟩, some ⟨env.STRIPE_SECRET⟩) := by
    rintro st (rfl | rfl)
    · simp [getStripe, h]
    · simp [getStripe]
  constructor
  · unfold createCheckoutP1
    rw [hG none (Or.inl rfl), hG _ (Or.inr rfl)]
  · intro st hst
    unfold createCheckoutP1
    rw [hG st hst]
    right
    rcases body with _ | b
    · rfl
    · rcases b with ⟨k?, pc⟩
      rcases k? with _ | k
      · rfl
      · simp only [Option.getD_some]
        by_cases hk : k = ""
        · rw [if_pos hk]
        · rw [if_neg hk]
          cases createRes <;> rfl

/-- Witness for C8 at a concrete configured environment and request. -/
theorem c8_memo_independence_witness :
    createCheckoutP1 { defaultEnv with STRIPE_SECRET := "sk" } none
        (some ⟨some "k.jpg", some 500⟩) (some "u") =
      createCheckoutP1 { defaultEnv with STRIPE_SECRET := "sk" }
        (some ⟨"sk"⟩) (some ⟨some "k.jpg", some 500⟩) (some "u") :=
  (c8_memo_independence { defaultEnv with STRIPE_SECRET := "sk" }
    (some ⟨some "k.jpg", some 500⟩) (some "u") (by decide)).1

/-- C8 counterexample: two runs of /admin/upload on the SAME request with
the SAME external outcomes differ when the clock differs — the Date.now()
reading lands in the generated keys of the response. -/
theorem c8_counterexample :
    (adminUpload { defaultEnv with ADMIN_TOKEN := "t" } 1 (some "Bearer t") none
      [(⟨some "p.jpg", some "image/jpeg", "c"⟩,
        ⟨true, true, .ok ⟨some ["f"], none⟩, .ok (some [])⟩)]).1 ≠
    (adminUpload { defaultEnv with ADMIN_TOKEN := "t" } 2 (some "Bearer t") none
      [(⟨some "p.jpg", some "image/jpeg", "c"⟩,
        ⟨true, true, .ok ⟨some ["f"], none⟩, .ok (some [])⟩)]).1 := by decide

end LNP
